import Mathlib

/-!
Verification development for the highlight-layer engine of the
industry-themed code-city panel.

The definitions below are a shallow embedding of the layer/mode logic found in
`src/panels/utils/qualityLayers.ts` and `src/panels/CodeCityPanel.tsx`:
JavaScript numbers carrying metric values are modelled by `ℚ` (issue counts,
which the source documents as non-negative integers, by `Nat`), JS `Map`s
built from entry lists by first-occurrence key lists (`dedupPaths`) with
last-entry-wins lookup where the source uses `new Map(...)`, and JS records by
association lists.  Stateful React pieces (the layer-composition effect, the
repository-change reset effect, the toggle callbacks) become explicit
functions on the panel's state.
-/

namespace CodeCity

/-- A member of a highlight layer: an entity path tagged file/directory with a
render strategy (`LayerItem` in the source). -/
structure LayerItem where
  path : String
  type : String
  renderStrategy : String
  deriving DecidableEq

/-- A visual highlight layer (`HighlightLayer` in the source). -/
structure HighlightLayer where
  id : String
  name : String
  enabled : Bool
  color : String
  priority : Int
  items : List LayerItem
  deriving DecidableEq

/-- A building of the city; the layer logic only ever reads its `path`
(`CityBuilding` is an external library type). -/
structure CityBuilding where
  path : String
  deriving DecidableEq

/-- Git status slice data: categorized file paths (`GitStatus` in the source). -/
structure GitStatus where
  staged : List String
  unstaged : List String
  untracked : List String
  deleted : List String
  deriving DecidableEq

/-- Per-file metric data from quality lenses (`FileMetricData` in the source). -/
structure FileMetricData where
  file : String
  score : ℚ
  issueCount : Nat
  errorCount : Nat
  warningCount : Nat
  infoCount : Nat
  hintCount : Nat
  deriving DecidableEq

/-- The `fileMetrics` record of the quality slice: one optional dataset per
quality lens. -/
structure FileMetricsSlice where
  eslint : Option (List FileMetricData)
  typescript : Option (List FileMetricData)
  prettier : Option (List FileMetricData)
  knip : Option (List FileMetricData)
  alexandria : Option (List FileMetricData)
  deriving DecidableEq

/-- Quality data slice structure (`QualitySliceData` in the source); the
`fileCoverage` record `path -> percentage` is modelled as an association
list with unique keys (a JS object). -/
structure QualitySliceData where
  fileCoverage : Option (List (String × ℚ))
  fileMetrics : Option FileMetricsSlice
  deriving DecidableEq

/-- Color mode options for the visualization (`ColorMode` in the source). -/
inductive ColorMode
  | fileTypes
  | git
  | coverage
  | eslint
  | typescript
  | prettier
  | knip
  | alexandria
  deriving DecidableEq

/-- Color mode configuration (`ColorModeConfig` in the source). -/
structure ColorModeConfig where
  id : ColorMode
  name : String
  description : String
  deriving DecidableEq

/-- The static registry of selectable modes (`COLOR_MODES` in the source). -/
def COLOR_MODES : List ColorModeConfig :=
  [ ⟨.fileTypes, "File Types", "Color by file extension"⟩,
    ⟨.git, "Git Status", "Color by git changes"⟩,
    ⟨.coverage, "Test Coverage", "Color by test coverage %"⟩,
    ⟨.eslint, "Linting", "Color by ESLint issues"⟩,
    ⟨.typescript, "Type Safety", "Color by TypeScript errors"⟩,
    ⟨.prettier, "Formatting", "Color by Prettier issues"⟩,
    ⟨.knip, "Dead Code", "Color by unused exports"⟩,
    ⟨.alexandria, "Documentation", "Color by doc coverage"⟩ ]

/-- `isColorModeAvailable` from `qualityLayers.ts`: whether the data needed by
a color mode is present and non-empty. -/
def isColorModeAvailable (mode : ColorMode) (qualityData : Option QualitySliceData)
    (hasGitData : Bool) : Bool :=
  match mode with
  | .fileTypes => true
  | .git => hasGitData
  | _ =>
    match qualityData with
    | none => false
    | some q =>
      match mode with
      | .coverage =>
        match q.fileCoverage with
        | none => false
        | some fc => decide (0 < fc.length)
      | .eslint =>
        match q.fileMetrics with
        | none => false
        | some fm =>
          match fm.eslint with
          | none => false
          | some l => decide (0 < l.length)
      | .typescript =>
        match q.fileMetrics with
        | none => false
        | some fm =>
          match fm.typescript with
          | none => false
          | some l => decide (0 < l.length)
      | .prettier =>
        match q.fileMetrics with
        | none => false
        | some fm =>
          match fm.prettier with
          | none => false
          | some l => decide (0 < l.length)
      | .knip =>
        match q.fileMetrics with
        | none => false
        | some fm =>
          match fm.knip with
          | none => false
          | some l => decide (0 < l.length)
      | .alexandria =>
        match q.fileMetrics with
        | none => false
        | some fm =>
          match fm.alexandria with
          | none => false
          | some l => decide (0 < l.length)
      | _ => false

/-- Helper for `dedupPaths`: keeps the keys not seen yet, in order. -/
def dedupAux : List String → List String → List String
  | [], _ => []
  | p :: rest, seen =>
    if p ∈ seen then dedupAux rest seen else p :: dedupAux rest (p :: seen)

/-- Key list of a JS `Map` built from an entry list: keys in first-occurrence
order, without duplicates.  Models iteration over `new Map(entries)`. -/
def dedupPaths (l : List String) : List String :=
  dedupAux l []

/-- The layer item every builder pushes: file entity rendered as fill. -/
def fillItem (p : String) : LayerItem :=
  ⟨p, "file", "fill"⟩

/-- Lookup in a JS record modelled as an association list
(`fileCoverage[path]`). -/
def lookupRecord (r : List (String × ℚ)) (p : String) : Option ℚ :=
  (r.find? (fun e => e.1 == p)).map (·.2)

/-- The six coverage buckets of `createCoverageHighlightLayers`. -/
inductive CovBucket
  | high
  | medium
  | low
  | veryLow
  | zero
  | noData
  deriving DecidableEq

/-- The if-chain of `createCoverageHighlightLayers` classifying one file's
coverage value (missing value -> `noData`). -/
def coverageBucket : Option ℚ → CovBucket
  | none => .noData
  | some coverage =>
    if 80 ≤ coverage then .high
    else if 50 ≤ coverage then .medium
    else if 20 ≤ coverage then .low
    else if 0 < coverage then .veryLow
    else .zero

/-- The `layerGroups` accumulator of `createCoverageHighlightLayers`. -/
structure CovGroups where
  high : List LayerItem
  medium : List LayerItem
  low : List LayerItem
  veryLow : List LayerItem
  zero : List LayerItem
  noData : List LayerItem
  deriving DecidableEq

/-- One `push` into the coverage `layerGroups`. -/
def covPush (g : CovGroups) (b : CovBucket) (it : LayerItem) : CovGroups :=
  match b with
  | .high => { g with high := g.high ++ [it] }
  | .medium => { g with medium := g.medium ++ [it] }
  | .low => { g with low := g.low ++ [it] }
  | .veryLow => { g with veryLow := g.veryLow ++ [it] }
  | .zero => { g with zero := g.zero ++ [it] }
  | .noData => { g with noData := g.noData ++ [it] }

/-- The grouping loop of `createCoverageHighlightLayers` over the
`buildingsByPath` map. -/
def covGroupsOf (fileCoverage : List (String × ℚ)) (paths : List String) : CovGroups :=
  paths.foldl
    (fun g p => covPush g (coverageBucket (lookupRecord fileCoverage p)) (fillItem p))
    ⟨[], [], [], [], [], []⟩

/-- `createCoverageHighlightLayers` from `qualityLayers.ts`. -/
def createCoverageHighlightLayers (buildings : List CityBuilding)
    (fileCoverage : List (String × ℚ)) : List HighlightLayer :=
  let paths := dedupPaths (buildings.map (·.path))
  let groups := covGroupsOf fileCoverage paths
  (if 0 < groups.high.length then
    [{ id := "coverage-high", name := "80-100%", enabled := true,
       color := "#22c55e", priority := 50, items := groups.high }] else []) ++
  (if 0 < groups.medium.length then
    [{ id := "coverage-medium", name := "50-79%", enabled := true,
       color := "#eab308", priority := 50, items := groups.medium }] else []) ++
  (if 0 < groups.low.length then
    [{ id := "coverage-low", name := "20-49%", enabled := true,
       color := "#f97316", priority := 50, items := groups.low }] else []) ++
  (if 0 < groups.veryLow.length then
    [{ id := "coverage-verylow", name := "1-19%", enabled := true,
       color := "#ef4444", priority := 50, items := groups.veryLow }] else []) ++
  (if 0 < groups.zero.length then
    [{ id := "coverage-zero", name := "0%", enabled := true,
       color := "#991b1b", priority := 50, items := groups.zero }] else []) ++
  (if 0 < groups.noData.length then
    [{ id := "coverage-nodata", name := "No data", enabled := true,
       color := "#6b7280", priority := 40, items := groups.noData }] else [])

/-- The six issue-count buckets of `createMetricHighlightLayers`. -/
inductive MetricBucket
  | clean
  | minor
  | moderate
  | significant
  | severe
  | noData
  deriving DecidableEq

/-- Lookup in the `metricsByPath` map of `createMetricHighlightLayers`
(`new Map(metrics.map(m => [m.file, m]))`: on duplicate files the last entry
wins). -/
def lookupMetric (metrics : List FileMetricData) (p : String) : Option FileMetricData :=
  metrics.reverse.find? (fun m => m.file == p)

/-- The if-chain of `createMetricHighlightLayers` classifying one file's
metric entry (missing entry -> `noData`). -/
def metricBucket : Option FileMetricData → MetricBucket
  | none => .noData
  | some metric =>
    let issues := metric.issueCount
    if issues = 0 then .clean
    else if issues ≤ 3 then .minor
    else if issues ≤ 10 then .moderate
    else if issues ≤ 25 then .significant
    else .severe

/-- The `layerGroups` accumulator of `createMetricHighlightLayers`. -/
structure MetricGroups where
  clean : List LayerItem
  minor : List LayerItem
  moderate : List LayerItem
  significant : List LayerItem
  severe : List LayerItem
  noData : List LayerItem
  deriving DecidableEq

/-- One `push` into the metric `layerGroups`. -/
def metricPush (g : MetricGroups) (b : MetricBucket) (it : LayerItem) : MetricGroups :=
  match b with
  | .clean => { g with clean := g.clean ++ [it] }
  | .minor => { g with minor := g.minor ++ [it] }
  | .moderate => { g with moderate := g.moderate ++ [it] }
  | .significant => { g with significant := g.significant ++ [it] }
  | .severe => { g with severe := g.severe ++ [it] }
  | .noData => { g with noData := g.noData ++ [it] }

/-- The grouping loop of `createMetricHighlightLayers` over the
`buildingsByPath` map. -/
def metricGroupsOf (metrics : List FileMetricData) (paths : List String) : MetricGroups :=
  paths.foldl
    (fun g p => metricPush g (metricBucket (lookupMetric metrics p)) (fillItem p))
    ⟨[], [], [], [], [], []⟩

/-- `createMetricHighlightLayers` from `qualityLayers.ts` (the `_metricName`
argument is unused by the source as well). -/
def createMetricHighlightLayers (buildings : List CityBuilding)
    (metrics : List FileMetricData) (metricId : String) (_metricName : String) :
    List HighlightLayer :=
  let paths := dedupPaths (buildings.map (·.path))
  let groups := metricGroupsOf metrics paths
  (if 0 < groups.clean.length then
    [{ id := metricId ++ "-clean", name := "0 issues", enabled := true,
       color := "#22c55e", priority := 50, items := groups.clean }] else []) ++
  (if 0 < groups.minor.length then
    [{ id := metricId ++ "-minor", name := "1-3 issues", enabled := true,
       color := "#84cc16", priority := 50, items := groups.minor }] else []) ++
  (if 0 < groups.moderate.length then
    [{ id := metricId ++ "-moderate", name := "4-10 issues", enabled := true,
       color := "#eab308", priority := 50, items := groups.moderate }] else []) ++
  (if 0 < groups.significant.length then
    [{ id := metricId ++ "-significant", name := "11-25 issues", enabled := true,
       color := "#f97316", priority := 50, items := groups.significant }] else []) ++
  (if 0 < groups.severe.length then
    [{ id := metricId ++ "-severe", name := "26+ issues", enabled := true,
       color := "#ef4444", priority := 50, items := groups.severe }] else []) ++
  (if 0 < groups.noData.length then
    [{ id := metricId ++ "-nodata", name := "No data", enabled := true,
       color := "#6b7280", priority := 40, items := groups.noData }] else [])

/-- `createEslintHighlightLayers` from `qualityLayers.ts`. -/
def createEslintHighlightLayers (buildings : List CityBuilding)
    (eslintMetrics : List FileMetricData) : List HighlightLayer :=
  createMetricHighlightLayers buildings eslintMetrics "eslint" "Linting"

/-- `createTypescriptHighlightLayers` from `qualityLayers.ts`. -/
def createTypescriptHighlightLayers (buildings : List CityBuilding)
    (typescriptMetrics : List FileMetricData) : List HighlightLayer :=
  createMetricHighlightLayers buildings typescriptMetrics "typescript" "Type Safety"

/-- `createPrettierHighlightLayers` from `qualityLayers.ts`. -/
def createPrettierHighlightLayers (buildings : List CityBuilding)
    (prettierMetrics : List FileMetricData) : List HighlightLayer :=
  createMetricHighlightLayers buildings prettierMetrics "prettier" "Formatting"

/-- `createKnipHighlightLayers` from `qualityLayers.ts`. -/
def createKnipHighlightLayers (buildings : List CityBuilding)
    (knipMetrics : List FileMetricData) : List HighlightLayer :=
  createMetricHighlightLayers buildings knipMetrics "knip" "Dead Code"

/-- `createAlexandriaHighlightLayers` from `qualityLayers.ts`. -/
def createAlexandriaHighlightLayers (buildings : List CityBuilding)
    (alexandriaMetrics : List FileMetricData) : List HighlightLayer :=
  createMetricHighlightLayers buildings alexandriaMetrics "alexandria" "Documentation"

/-- `getLayersForColorMode` from `qualityLayers.ts`. -/
def getLayersForColorMode (mode : ColorMode) (buildings : List CityBuilding)
    (qualityData : Option QualitySliceData) (fileColorLayers : List HighlightLayer)
    (gitLayers : List HighlightLayer) : List HighlightLayer :=
  match mode with
  | .fileTypes => fileColorLayers
  | .git => gitLayers
  | .coverage =>
    match qualityData with
    | some q =>
      match q.fileCoverage with
      | some fc => createCoverageHighlightLayers buildings fc
      | none => []
    | none => []
  | .eslint =>
    match qualityData with
    | some q =>
      match q.fileMetrics with
      | some fm =>
        match fm.eslint with
        | some l => createEslintHighlightLayers buildings l
        | none => []
      | none => []
    | none => []
  | .typescript =>
    match qualityData with
    | some q =>
      match q.fileMetrics with
      | some fm =>
        match fm.typescript with
        | some l => createTypescriptHighlightLayers buildings l
        | none => []
      | none => []
    | none => []
  | .prettier =>
    match qualityData with
    | some q =>
      match q.fileMetrics with
      | some fm =>
        match fm.prettier with
        | some l => createPrettierHighlightLayers buildings l
        | none => []
      | none => []
    | none => []
  | .knip =>
    match qualityData with
    | some q =>
      match q.fileMetrics with
      | some fm =>
        match fm.knip with
        | some l => createKnipHighlightLayers buildings l
        | none => []
      | none => []
    | none => []
  | .alexandria =>
    match qualityData with
    | some q =>
      match q.fileMetrics with
      | some fm =>
        match fm.alexandria with
        | some l => createAlexandriaHighlightLayers buildings l
        | none => []
      | none => []
    | none => []

/-- `createLayerItems` inside the `gitStatusLayers` memo of
`CodeCityPanel.tsx`: resolve each path against `buildingsByPath`, silently
dropping paths without a building. -/
def createLayerItems (buildingPaths : List String) (paths : List String) : List LayerItem :=
  paths.filterMap (fun p => if p ∈ buildingPaths then some (fillItem p) else none)

/-- The `gitStatusLayers` memo of `CodeCityPanel.tsx`: one fixed layer per
non-empty git category whose paths resolve to at least one building. -/
def gitStatusLayers (buildings : List CityBuilding) (git : Option GitStatus) :
    List HighlightLayer :=
  match git with
  | none => []
  | some gitStatus =>
    let buildingPaths := dedupPaths (buildings.map (·.path))
    let stagedItems := createLayerItems buildingPaths gitStatus.staged
    let unstagedItems := createLayerItems buildingPaths gitStatus.unstaged
    let untrackedItems := createLayerItems buildingPaths gitStatus.untracked
    let deletedItems := createLayerItems buildingPaths gitStatus.deleted
    (if 0 < gitStatus.staged.length ∧ 0 < stagedItems.length then
      [{ id := "git-highlight-staged", name := "Staged", enabled := true,
         color := "#22c55e", priority := 100, items := stagedItems }] else []) ++
    ((if 0 < gitStatus.unstaged.length ∧ 0 < unstagedItems.length then
      [{ id := "git-highlight-unstaged", name := "Modified", enabled := true,
         color := "#f59e0b", priority := 90, items := unstagedItems }] else []) ++
    ((if 0 < gitStatus.untracked.length ∧ 0 < untrackedItems.length then
      [{ id := "git-highlight-untracked", name := "Untracked", enabled := true,
         color := "#6b7280", priority := 80, items := untrackedItems }] else []) ++
    (if 0 < gitStatus.deleted.length ∧ 0 < deletedItems.length then
      [{ id := "git-highlight-deleted", name := "Deleted", enabled := true,
         color := "#ef4444", priority := 110, items := deletedItems }] else [])))

/-- Models JS `s.startsWith(pre)`. -/
def strStartsWith (s pre : String) : Bool :=
  pre.toList.isPrefixOf s.toList

/-- One agent layer as formatted by the layer-composition effect of
`CodeCityPanel.tsx`: `id: layer.id || 'event-highlight-' + idx` and
`priority: layer.priority || 150` (JS `||` takes the fallback exactly on a
falsy value, i.e. the empty string resp. priority `0`). -/
def formatAgentLayer (idx : Nat) (layer : HighlightLayer) : HighlightLayer :=
  { id := if layer.id = "" then "event-highlight-" ++ Nat.repr idx else layer.id
    name := layer.name
    enabled := layer.enabled
    color := layer.color
    priority := if layer.priority = 0 then 150 else layer.priority
    items := layer.items }

/-- The `formattedAgentLayers` of the layer-composition effect. -/
def formattedAgentLayers (agentLayers : List HighlightLayer) : List HighlightLayer :=
  (agentLayers.enum).map (fun e => formatAgentLayer e.1 e.2)

/-- The mode-layer selection of the layer-composition effect: file-type layers
are re-enabled (`enabled: true`), git and quality modes use their memoized
layers as-is. -/
def modeLayersFor (mode : ColorMode) (fileColorLayers : List HighlightLayer)
    (gitLayers : List HighlightLayer) (qualityLayers : List HighlightLayer) :
    List HighlightLayer :=
  match mode with
  | .fileTypes => fileColorLayers.map (fun layer => { layer with enabled := true })
  | .git => gitLayers
  | _ => qualityLayers

/-- The layer-composition effect of `CodeCityPanel.tsx`: the new highlight
layer state is the selected mode's layers followed by the formatted agent
layers; the previous state is not consulted. -/
def composeLayers (mode : ColorMode) (fileColorLayers : List HighlightLayer)
    (gitLayers : List HighlightLayer) (qualityLayers : List HighlightLayer)
    (agentLayers : List HighlightLayer) : List HighlightLayer :=
  modeLayersFor mode fileColorLayers gitLayers qualityLayers ++
    formattedAgentLayers agentLayers

/-- The body shared by the `toggleGitStatus`, `toggleAgentLayer` and
`toggleQualityMetric` callbacks of `CodeCityPanel.tsx`: flip `enabled` on the
layers whose id matches, keep everything else. -/
def toggleHighlightLayer (id : String) (layers : List HighlightLayer) :
    List HighlightLayer :=
  layers.map (fun layer =>
    if layer.id = id then { layer with enabled := !layer.enabled } else layer)

/-- `toggleGitStatus` from `CodeCityPanel.tsx`. -/
def toggleGitStatus (id : String) (layers : List HighlightLayer) : List HighlightLayer :=
  toggleHighlightLayer id layers

/-- `toggleAgentLayer` from `CodeCityPanel.tsx`. -/
def toggleAgentLayer (id : String) (layers : List HighlightLayer) : List HighlightLayer :=
  toggleHighlightLayer id layers

/-- `toggleQualityMetric` from `CodeCityPanel.tsx`. -/
def toggleQualityMetric (id : String) (layers : List HighlightLayer) : List HighlightLayer :=
  toggleHighlightLayer id layers

/-- `clearAgentLayers` from `CodeCityPanel.tsx`: drop every layer whose id
starts with `event-highlight`. -/
def clearAgentLayers (layers : List HighlightLayer) : List HighlightLayer :=
  layers.filter (fun layer => !(strStartsWith layer.id "event-highlight"))

/-- The `hasGitData` computation of the `availableColorModes` memo. -/
def hasGitData (git : Option GitStatus) : Bool :=
  match git with
  | none => false
  | some d =>
    decide (0 < d.staged.length) || decide (0 < d.unstaged.length) ||
      decide (0 < d.untracked.length) || decide (0 < d.deleted.length)

/-- The `availableColorModes` memo of `CodeCityPanel.tsx`. -/
def availableColorModes (git : Option GitStatus) (qualityData : Option QualitySliceData) :
    List ColorModeConfig :=
  COLOR_MODES.filter (fun mode => isColorModeAvailable mode.id qualityData (hasGitData git))

/-- The part of the panel state that drives mode selection: the active color
mode and the last observed repository path (`colorMode` state and
`lastRepoPath` ref). -/
structure PanelModeState where
  colorMode : ColorMode
  lastRepoPath : Option String
  deriving DecidableEq

/-- The repository-change reset effect of `CodeCityPanel.tsx`: the only place
outside the dropdown that writes `colorMode`.  On a repository-path change it
resets the mode to `fileTypes`; otherwise it leaves the state untouched. -/
def recomputeOnChange (s : PanelModeState) (currentRepoPath : Option String) :
    PanelModeState :=
  if s.lastRepoPath ≠ currentRepoPath then
    { colorMode := .fileTypes, lastRepoPath := currentRepoPath }
  else s

/-- Does some layer of the list have the given path among its items? -/
def layerHasPath (layer : HighlightLayer) (p : String) : Bool :=
  layer.items.any (fun it => it.path == p)

/-- The items of one coverage bucket, expressed as a filter over the visited
paths; the bridge target for the grouping loop. -/
def covFilterItems (fileCoverage : List (String × ℚ)) (paths : List String)
    (b : CovBucket) : List LayerItem :=
  (paths.filter (fun p => coverageBucket (lookupRecord fileCoverage p) == b)).map fillItem

/-- The deduplicated building paths every builder iterates over. -/
def covPathsOf (buildings : List CityBuilding) : List String :=
  dedupPaths (buildings.map (·.path))

/-- Availability as worded by the specification: `fileTypes` always; `git` iff
git data present; a quality mode iff its metric source is present with at
least one entry. -/
def availableSpec (mode : ColorMode) (qualityData : Option QualitySliceData)
    (hasGit : Bool) : Prop :=
  match mode with
  | .fileTypes => True
  | .git => hasGit = true
  | .coverage =>
    ∃ qd fc, qualityData = some qd ∧ qd.fileCoverage = some fc ∧ 0 < fc.length
  | .eslint =>
    ∃ qd fm l, qualityData = some qd ∧ qd.fileMetrics = some fm ∧
      fm.eslint = some l ∧ 0 < l.length
  | .typescript =>
    ∃ qd fm l, qualityData = some qd ∧ qd.fileMetrics = some fm ∧
      fm.typescript = some l ∧ 0 < l.length
  | .prettier =>
    ∃ qd fm l, qualityData = some qd ∧ qd.fileMetrics = some fm ∧
      fm.prettier = some l ∧ 0 < l.length
  | .knip =>
    ∃ qd fm l, qualityData = some qd ∧ qd.fileMetrics = some fm ∧
      fm.knip = some l ∧ 0 < l.length
  | .alexandria =>
    ∃ qd fm l, qualityData = some qd ∧ qd.fileMetrics = some fm ∧
      fm.alexandria = some l ∧ 0 < l.length

/-- The items of one issue-count bucket, expressed as a filter over the
visited paths; the bridge target for the grouping loop. -/
def metricFilterItems (metrics : List FileMetricData) (paths : List String)
    (b : MetricBucket) : List LayerItem :=
  (paths.filter (fun p => metricBucket (lookupMetric metrics p) == b)).map fillItem

/-- The id suffix of each issue-count bucket's layer. -/
def metricSuffix : MetricBucket → String
  | .clean => "-clean"
  | .minor => "-minor"
  | .moderate => "-moderate"
  | .significant => "-significant"
  | .severe => "-severe"
  | .noData => "-nodata"

/-- All layer attributes except the id. -/
def layerSansId (L : HighlightLayer) : String × Bool × String × Int × List LayerItem :=
  (L.name, L.enabled, L.color, L.priority, L.items)

/-- C10 witness: a supplied agent-layer id is kept verbatim. -/
theorem mem_dedupAux {q : String} :
    ∀ {l seen : List String}, q ∈ dedupAux l seen ↔ q ∈ l ∧ q ∉ seen := by
  intro l
  induction l with
  | nil => simp [dedupAux]
  | cons p rest ih =>
    intro seen
    by_cases hp : p ∈ seen
    · simp only [dedupAux, if_pos hp, ih, List.mem_cons]
      constructor
      · rintro ⟨hr, hs⟩; exact ⟨Or.inr hr, hs⟩
      · rintro ⟨hq | hr, hs⟩
        · exact absurd (hq ▸ hp) hs
        · exact ⟨hr, hs⟩
    · simp only [dedupAux, if_neg hp, List.mem_cons, ih]
      by_cases hq : q = p <;> simp [hq, hp]

theorem mem_dedupPaths {q : String} {l : List String} : q ∈ dedupPaths l ↔ q ∈ l := by
  simp [dedupPaths, mem_dedupAux]

theorem covFoldl_eq (fc : List (String × ℚ)) :
    ∀ (paths : List String) (g : CovGroups),
      paths.foldl
        (fun g p => covPush g (coverageBucket (lookupRecord fc p)) (fillItem p)) g =
      ⟨g.high ++ covFilterItems fc paths .high,
       g.medium ++ covFilterItems fc paths .medium,
       g.low ++ covFilterItems fc paths .low,
       g.veryLow ++ covFilterItems fc paths .veryLow,
       g.zero ++ covFilterItems fc paths .zero,
       g.noData ++ covFilterItems fc paths .noData⟩ := by
  intro paths
  induction paths with
  | nil => intro g; simp [covFilterItems]
  | cons p rest ih =>
    intro g
    rw [List.foldl_cons, ih]
    cases h : coverageBucket (lookupRecord fc p) <;>
      simp [covPush, covFilterItems, h, List.filter_cons]

theorem covGroupsOf_eq (fc : List (String × ℚ)) (paths : List String) :
    covGroupsOf fc paths =
      ⟨covFilterItems fc paths .high, covFilterItems fc paths .medium,
       covFilterItems fc paths .low, covFilterItems fc paths .veryLow,
       covFilterItems fc paths .zero, covFilterItems fc paths .noData⟩ := by
  have h := covFoldl_eq fc paths ⟨[], [], [], [], [], []⟩
  simpa [covGroupsOf] using h

theorem createCoverage_expand (buildings : List CityBuilding) (fc : List (String × ℚ)) :
    createCoverageHighlightLayers buildings fc =
      (if 0 < (covFilterItems fc (covPathsOf buildings) .high).length then
        [{ id := "coverage-high", name := "80-100%", enabled := true,
           color := "#22c55e", priority := 50,
           items := covFilterItems fc (covPathsOf buildings) .high }] else []) ++
      (if 0 < (covFilterItems fc (covPathsOf buildings) .medium).length then
        [{ id := "coverage-medium", name := "50-79%", enabled := true,
           color := "#eab308", priority := 50,
           items := covFilterItems fc (covPathsOf buildings) .medium }] else []) ++
      (if 0 < (covFilterItems fc (covPathsOf buildings) .low).length then
        [{ id := "coverage-low", name := "20-49%", enabled := true,
           color := "#f97316", priority := 50,
           items := covFilterItems fc (covPathsOf buildings) .low }] else []) ++
      (if 0 < (covFilterItems fc (covPathsOf buildings) .veryLow).length then
        [{ id := "coverage-verylow", name := "1-19%", enabled := true,
           color := "#ef4444", priority := 50,
           items := covFilterItems fc (covPathsOf buildings) .veryLow }] else []) ++
      (if 0 < (covFilterItems fc (covPathsOf buildings) .zero).length then
        [{ id := "coverage-zero", name := "0%", enabled := true,
           color := "#991b1b", priority := 50,
           items := covFilterItems fc (covPathsOf buildings) .zero }] else []) ++
      (if 0 < (covFilterItems fc (covPathsOf buildings) .noData).length then
        [{ id := "coverage-nodata", name := "No data", enabled := true,
           color := "#6b7280", priority := 40,
           items := covFilterItems fc (covPathsOf buildings) .noData }] else []) := by
  simp only [createCoverageHighlightLayers, covGroupsOf_eq, covPathsOf]

theorem anyPath_covFilter {fc : List (String × ℚ)} {paths : List String}
    {b : CovBucket} {q : String} :
    ((covFilterItems fc paths b).any (fun it => it.path == q) = true) ↔
      (q ∈ paths ∧ coverageBucket (lookupRecord fc q) = b) := by
  simp only [covFilterItems, List.any_eq_true, List.mem_map, List.mem_filter]
  constructor
  · rintro ⟨it, ⟨p, ⟨hp, hb⟩, rfl⟩, hq⟩
    simp only [fillItem, beq_iff_eq] at hq
    subst hq
    exact ⟨hp, by simpa using hb⟩
  · rintro ⟨hq, hb⟩
    exact ⟨fillItem q, ⟨q, ⟨hq, by simpa using hb⟩, rfl⟩, by simp [fillItem]⟩

theorem countP_if_singleton_le {c : Prop} [Decidable c] (L : HighlightLayer)
    (P : HighlightLayer → Bool) :
    (if c then [L] else []).countP P ≤ if P L then 1 else 0 := by
  split_ifs with h1 h2 <;>
    simp_all [List.countP_cons, List.countP_nil]

/-- Partition property of the coverage builder: any path lies in the
item set of at most one emitted layer. -/
theorem coverage_countP_le_one (buildings : List CityBuilding)
    (fc : List (String × ℚ)) (q : String) :
    ((createCoverageHighlightLayers buildings fc).countP
      (fun L => layerHasPath L q)) ≤ 1 := by
  rw [createCoverage_expand]
  simp only [List.countP_append]
  set paths := covPathsOf buildings with hpaths
  have key : ∀ b : CovBucket, ∀ i n e c pr,
      (if layerHasPath ⟨i, n, e, c, pr, covFilterItems fc paths b⟩ q then 1 else 0) =
        (if (q ∈ paths ∧ coverageBucket (lookupRecord fc q) = b) then 1 else 0) := by
    intro b i n e c pr
    by_cases hmem : q ∈ paths ∧ coverageBucket (lookupRecord fc q) = b
    · rw [if_pos hmem, if_pos]
      exact anyPath_covFilter.mpr hmem
    · rw [if_neg hmem, if_neg]
      intro hcontra
      exact hmem (anyPath_covFilter.mp hcontra)
  have step : ∀ b : CovBucket, ∀ cnd : Prop, ∀ inst : Decidable cnd, ∀ i n e c pr,
      (@ite _ cnd inst
          [HighlightLayer.mk i n e c pr (covFilterItems fc paths b)] []).countP
        (fun L => layerHasPath L q) ≤
        (if (q ∈ paths ∧ coverageBucket (lookupRecord fc q) = b) then 1 else 0) := by
    intro b cnd inst i n e c pr
    calc (@ite _ cnd inst [HighlightLayer.mk i n e c pr (covFilterItems fc paths b)]
            []).countP (fun L => layerHasPath L q) ≤
        (if layerHasPath ⟨i, n, e, c, pr, covFilterItems fc paths b⟩ q then 1 else 0) :=
          countP_if_singleton_le _ _
      _ = _ := key b i n e c pr
  have total :
      (if (q ∈ paths ∧ coverageBucket (lookupRecord fc q) = .high) then 1 else 0) +
      (if (q ∈ paths ∧ coverageBucket (lookupRecord fc q) = .medium) then 1 else 0) +
      (if (q ∈ paths ∧ coverageBucket (lookupRecord fc q) = .low) then 1 else 0) +
      (if (q ∈ paths ∧ coverageBucket (lookupRecord fc q) = .veryLow) then 1 else 0) +
      (if (q ∈ paths ∧ coverageBucket (lookupRecord fc q) = .zero) then 1 else 0) +
      (if (q ∈ paths ∧ coverageBucket (lookupRecord fc q) = .noData) then 1 else 0) ≤ 1 := by
    by_cases hq : q ∈ paths
    · cases hb : coverageBucket (lookupRecord fc q) <;> simp [hq, hb]
    · simp [hq]
  refine le_trans ?_ total
  gcongr <;> exact step _ _ _ _ _ _ _ _

/-- The coverage if-chain realizes exactly the six closed-bound buckets of the
specification on in-range values. -/
theorem coverageBucket_char (c : ℚ) (h0 : 0 ≤ c) (h100 : c ≤ 100) :
    (coverageBucket (some c) = .high ↔ 80 ≤ c ∧ c ≤ 100) ∧
    (coverageBucket (some c) = .medium ↔ 50 ≤ c ∧ c < 80) ∧
    (coverageBucket (some c) = .low ↔ 20 ≤ c ∧ c < 50) ∧
    (coverageBucket (some c) = .veryLow ↔ 0 < c ∧ c < 20) ∧
    (coverageBucket (some c) = .zero ↔ c = 0) := by
  simp only [coverageBucket]
  split_ifs with h1 h2 h3 h4 <;>
    refine ⟨⟨fun hx => ?_, fun hx => ?_⟩, ⟨fun hx => ?_, fun hx => ?_⟩,
      ⟨fun hx => ?_, fun hx => ?_⟩, ⟨fun hx => ?_, fun hx => ?_⟩,
      ⟨fun hx => ?_, fun hx => ?_⟩⟩ <;>
    first
      | rfl
      | (exact ⟨by linarith, by linarith⟩)
      | linarith
      | simp_all

/-- The issue-count if-chain realizes exactly the bucket thresholds of the
specification. -/
theorem metricBucket_char (m : FileMetricData) :
    (metricBucket (some m) = .clean ↔ m.issueCount = 0) ∧
    (metricBucket (some m) = .minor ↔ 1 ≤ m.issueCount ∧ m.issueCount ≤ 3) ∧
    (metricBucket (some m) = .moderate ↔ 4 ≤ m.issueCount ∧ m.issueCount ≤ 10) ∧
    (metricBucket (some m) = .significant ↔ 11 ≤ m.issueCount ∧ m.issueCount ≤ 25) ∧
    (metricBucket (some m) = .severe ↔ 26 ≤ m.issueCount) := by
  simp only [metricBucket]
  split_ifs with h1 h2 h3 h4 <;>
    refine ⟨⟨fun hx => ?_, fun hx => ?_⟩, ⟨fun hx => ?_, fun hx => ?_⟩,
      ⟨fun hx => ?_, fun hx => ?_⟩, ⟨fun hx => ?_, fun hx => ?_⟩,
      ⟨fun hx => ?_, fun hx => ?_⟩⟩ <;>
    first
      | rfl
      | omega
      | simp_all

theorem string_append_cancel {a b c : String} (h : a ++ b = a ++ c) : b = c := by
  cases a; cases b; cases c
  simp only [HAppend.hAppend, Append.append, String.append] at h
  injection h with h2
  exact congrArg String.mk (List.append_cancel_left h2)

theorem mem_six_append_iff {α : Type} {A B C D E F : List α} {x : α} :
    x ∈ A ++ B ++ C ++ D ++ E ++ F ↔
      (x ∈ A ∨ x ∈ B ∨ x ∈ C ∨ x ∈ D ∨ x ∈ E ∨ x ∈ F) := by
  simp only [List.mem_append]
  tauto

theorem mem_four_append_iff {α : Type} {A B C D : List α} {x : α} :
    x ∈ A ++ (B ++ (C ++ D)) ↔ (x ∈ A ∨ x ∈ B ∨ x ∈ C ∨ x ∈ D) := by
  simp only [List.mem_append]

theorem isColorModeAvailable_iff_spec (mode : ColorMode)
    (qualityData : Option QualitySliceData) (hasGit : Bool) :
    isColorModeAvailable mode qualityData hasGit = true ↔
      availableSpec mode qualityData hasGit := by
  cases mode with
  | fileTypes => simp [isColorModeAvailable, availableSpec]
  | git => simp [isColorModeAvailable, availableSpec]
  | coverage =>
    cases qualityData with
    | none => simp [isColorModeAvailable, availableSpec]
    | some qd =>
      cases hfc : qd.fileCoverage <;>
        simp [isColorModeAvailable, availableSpec, hfc]
  | eslint =>
    cases qualityData with
    | none => simp [isColorModeAvailable, availableSpec]
    | some qd =>
      cases hfm : qd.fileMetrics with
      | none => simp [isColorModeAvailable, availableSpec, hfm]
      | some fm =>
        cases hl : fm.eslint <;>
          simp [isColorModeAvailable, availableSpec, hfm, hl]
  | typescript =>
    cases qualityData with
    | none => simp [isColorModeAvailable, availableSpec]
    | some qd =>
      cases hfm : qd.fileMetrics with
      | none => simp [isColorModeAvailable, availableSpec, hfm]
      | some fm =>
        cases hl : fm.typescript <;>
          simp [isColorModeAvailable, availableSpec, hfm, hl]
  | prettier =>
    cases qualityData with
    | none => simp [isColorModeAvailable, availableSpec]
    | some qd =>
      cases hfm : qd.fileMetrics with
      | none => simp [isColorModeAvailable, availableSpec, hfm]
      | some fm =>
        cases hl : fm.prettier <;>
          simp [isColorModeAvailable, availableSpec, hfm, hl]
  | knip =>
    cases qualityData with
    | none => simp [isColorModeAvailable, availableSpec]
    | some qd =>
      cases hfm : qd.fileMetrics with
      | none => simp [isColorModeAvailable, availableSpec, hfm]
      | some fm =>
        cases hl : fm.knip <;>
          simp [isColorModeAvailable, availableSpec, hfm, hl]
  | alexandria =>
    cases qualityData with
    | none => simp [isColorModeAvailable, availableSpec]
    | some qd =>
      cases hfm : qd.fileMetrics with
      | none => simp [isColorModeAvailable, availableSpec, hfm]
      | some fm =>
        cases hl : fm.alexandria <;>
          simp [isColorModeAvailable, availableSpec, hfm, hl]

theorem metricFoldl_eq (metrics : List FileMetricData) :
    ∀ (paths : List String) (g : MetricGroups),
      paths.foldl
        (fun g p => metricPush g (metricBucket (lookupMetric metrics p)) (fillItem p)) g =
      ⟨g.clean ++ metricFilterItems metrics paths .clean,
       g.minor ++ metricFilterItems metrics paths .minor,
       g.moderate ++ metricFilterItems metrics paths .moderate,
       g.significant ++ metricFilterItems metrics paths .significant,
       g.severe ++ metricFilterItems metrics paths .severe,
       g.noData ++ metricFilterItems metrics paths .noData⟩ := by
  intro paths
  induction paths with
  | nil => intro g; simp [metricFilterItems]
  | cons p rest ih =>
    intro g
    rw [List.foldl_cons, ih]
    cases h : metricBucket (lookupMetric metrics p) <;>
      simp [metricPush, metricFilterItems, h, List.filter_cons]

theorem metricGroupsOf_eq (metrics : List FileMetricData) (paths : List String) :
    metricGroupsOf metrics paths =
      ⟨metricFilterItems metrics paths .clean, metricFilterItems metrics paths .minor,
       metricFilterItems metrics paths .moderate,
       metricFilterItems metrics paths .significant,
       metricFilterItems metrics paths .severe,
       metricFilterItems metrics paths .noData⟩ := by
  have h := metricFoldl_eq metrics paths ⟨[], [], [], [], [], []⟩
  simpa [metricGroupsOf] using h

theorem createMetric_expand (buildings : List CityBuilding)
    (metrics : List FileMetricData) (metricId : String) (mName : String) :
    createMetricHighlightLayers buildings metrics metricId mName =
      (if 0 < (metricFilterItems metrics (covPathsOf buildings) .clean).length then
        [{ id := metricId ++ "-clean", name := "0 issues", enabled := true,
           color := "#22c55e", priority := 50,
           items := metricFilterItems metrics (covPathsOf buildings) .clean }] else []) ++
      (if 0 < (metricFilterItems metrics (covPathsOf buildings) .minor).length then
        [{ id := metricId ++ "-minor", name := "1-3 issues", enabled := true,
           color := "#84cc16", priority := 50,
           items := metricFilterItems metrics (covPathsOf buildings) .minor }] else []) ++
      (if 0 < (metricFilterItems metrics (covPathsOf buildings) .moderate).length then
        [{ id := metricId ++ "-moderate", name := "4-10 issues", enabled := true,
           color := "#eab308", priority := 50,
           items := metricFilterItems metrics (covPathsOf buildings) .moderate }] else []) ++
      (if 0 < (metricFilterItems metrics (covPathsOf buildings) .significant).length then
        [{ id := metricId ++ "-significant", name := "11-25 issues", enabled := true,
           color := "#f97316", priority := 50,
           items := metricFilterItems metrics (covPathsOf buildings) .significant }]
        else []) ++
      (if 0 < (metricFilterItems metrics (covPathsOf buildings) .severe).length then
        [{ id := metricId ++ "-severe", name := "26+ issues", enabled := true,
           color := "#ef4444", priority := 50,
           items := metricFilterItems metrics (covPathsOf buildings) .severe }] else []) ++
      (if 0 < (metricFilterItems metrics (covPathsOf buildings) .noData).length then
        [{ id := metricId ++ "-nodata", name := "No data", enabled := true,
           color := "#6b7280", priority := 40,
           items := metricFilterItems metrics (covPathsOf buildings) .noData }] else []) := by
  simp only [createMetricHighlightLayers, metricGroupsOf_eq, covPathsOf]

theorem anyPath_metricFilter {metrics : List FileMetricData} {paths : List String}
    {b : MetricBucket} {q : String} :
    ((metricFilterItems metrics paths b).any (fun it => it.path == q) = true) ↔
      (q ∈ paths ∧ metricBucket (lookupMetric metrics q) = b) := by
  simp only [metricFilterItems, List.any_eq_true, List.mem_map, List.mem_filter]
  constructor
  · rintro ⟨it, ⟨p, ⟨hp, hb⟩, rfl⟩, hq⟩
    simp only [fillItem, beq_iff_eq] at hq
    subst hq
    exact ⟨hp, by simpa using hb⟩
  · rintro ⟨hq, hb⟩
    exact ⟨fillItem q, ⟨q, ⟨hq, by simpa using hb⟩, rfl⟩, by simp [fillItem]⟩

/-- Partition property of the issue-count builder: any path lies in the item
set of at most one emitted layer. -/
theorem metric_countP_le_one (buildings : List CityBuilding)
    (metrics : List FileMetricData) (metricId : String) (mName : String) (q : String) :
    ((createMetricHighlightLayers buildings metrics metricId mName).countP
      (fun L => layerHasPath L q)) ≤ 1 := by
  rw [createMetric_expand]
  simp only [List.countP_append]
  set paths := covPathsOf buildings with hpaths
  have key : ∀ b : MetricBucket, ∀ i n e c pr,
      (if layerHasPath ⟨i, n, e, c, pr, metricFilterItems metrics paths b⟩ q then 1 else 0) =
        (if (q ∈ paths ∧ metricBucket (lookupMetric metrics q) = b) then 1 else 0) := by
    intro b i n e c pr
    by_cases hmem : q ∈ paths ∧ metricBucket (lookupMetric metrics q) = b
    · rw [if_pos hmem, if_pos]
      exact anyPath_metricFilter.mpr hmem
    · rw [if_neg hmem, if_neg]
      intro hcontra
      exact hmem (anyPath_metricFilter.mp hcontra)
  have step : ∀ b : MetricBucket, ∀ cnd : Prop, ∀ inst : Decidable cnd, ∀ i n e c pr,
      (@ite _ cnd inst
          [HighlightLayer.mk i n e c pr (metricFilterItems metrics paths b)] []).countP
        (fun L => layerHasPath L q) ≤
        (if (q ∈ paths ∧ metricBucket (lookupMetric metrics q) = b) then 1 else 0) := by
    intro b cnd inst i n e c pr
    calc (@ite _ cnd inst [HighlightLayer.mk i n e c pr (metricFilterItems metrics paths b)]
            []).countP (fun L => layerHasPath L q) ≤
        (if layerHasPath ⟨i, n, e, c, pr, metricFilterItems metrics paths b⟩ q then 1
          else 0) := countP_if_singleton_le _ _
      _ = _ := key b i n e c pr
  have total :
      (if (q ∈ paths ∧ metricBucket (lookupMetric metrics q) = .clean) then 1 else 0) +
      (if (q ∈ paths ∧ metricBucket (lookupMetric metrics q) = .minor) then 1 else 0) +
      (if (q ∈ paths ∧ metricBucket (lookupMetric metrics q) = .moderate) then 1 else 0) +
      (if (q ∈ paths ∧ metricBucket (lookupMetric metrics q) = .significant) then 1
        else 0) +
      (if (q ∈ paths ∧ metricBucket (lookupMetric metrics q) = .severe) then 1 else 0) +
      (if (q ∈ paths ∧ metricBucket (lookupMetric metrics q) = .noData) then 1 else 0) ≤
        1 := by
    by_cases hq : q ∈ paths
    · cases hb : metricBucket (lookupMetric metrics q) <;> simp [hq, hb]
    · simp [hq]
  refine le_trans ?_ total
  gcongr <;> exact step _ _ _ _ _ _ _ _

theorem mem_if_singleton {α : Type} {c : Prop} [Decidable c] {x y : α} :
    (y ∈ (if c then [x] else [])) ↔ (c ∧ y = x) := by
  split_ifs with h <;> simp [h]

theorem anyPath_createLayerItems {bpaths l : List String} {q : String} :
    ((createLayerItems bpaths l).any (fun it => it.path == q) = true) ↔
      (q ∈ l ∧ q ∈ bpaths) := by
  simp only [createLayerItems, List.any_eq_true, List.mem_filterMap]
  constructor
  · rintro ⟨it, ⟨p, hp, hf⟩, hq⟩
    by_cases hb : p ∈ bpaths
    · rw [if_pos hb] at hf
      cases hf
      simp only [fillItem, beq_iff_eq] at hq
      subst hq
      exact ⟨hp, hb⟩
    · rw [if_neg hb] at hf
      cases hf
  · rintro ⟨hl, hb⟩
    exact ⟨fillItem q, ⟨q, hl, by rw [if_pos hb]⟩, by simp [fillItem]⟩

theorem createLayerItems_pos {bpaths l : List String} {q : String}
    (hq : q ∈ l) (hb : q ∈ bpaths) : 0 < (createLayerItems bpaths l).length := by
  have hmem : fillItem q ∈ createLayerItems bpaths l := by
    simp only [createLayerItems, List.mem_filterMap]
    exact ⟨q, hq, by rw [if_pos hb]⟩
  exact List.length_pos.mpr (List.ne_nil_of_mem hmem)

/-- A path is in the staged layer's items exactly when the staged input lists
it and it resolves to a building — independently of the other categories. -/
theorem git_staged_char (buildings : List CityBuilding) (gs : GitStatus) (q : String) :
    (∃ L ∈ gitStatusLayers buildings (some gs),
        L.id = "git-highlight-staged" ∧ layerHasPath L q = true) ↔
      (q ∈ gs.staged ∧ q ∈ covPathsOf buildings) := by
  constructor
  · rintro ⟨L, hL, hid, hpath⟩
    simp only [gitStatusLayers] at hL
    rcases List.mem_append.mp hL with h | hL
    · obtain ⟨hc, rfl⟩ := mem_if_singleton.mp h
      simp only [layerHasPath] at hpath
      exact anyPath_createLayerItems.mp hpath
    rcases List.mem_append.mp hL with h | hL
    · obtain ⟨hc, rfl⟩ := mem_if_singleton.mp h
      simp at hid
    rcases List.mem_append.mp hL with h | hL
    · obtain ⟨hc, rfl⟩ := mem_if_singleton.mp h
      simp at hid
    obtain ⟨hc, rfl⟩ := mem_if_singleton.mp hL
    simp at hid
  · rintro ⟨hq, hb⟩
    refine ⟨{ id := "git-highlight-staged"
              name := "Staged"
              enabled := true
              color := "#22c55e"
              priority := 100
              items := createLayerItems (dedupPaths (buildings.map (·.path)))
                gs.staged }, ?_, rfl, ?_⟩
    · simp only [gitStatusLayers]
      exact List.mem_append_left _ (mem_if_singleton.mpr
        ⟨⟨List.length_pos.mpr (List.ne_nil_of_mem hq),
          createLayerItems_pos hq hb⟩, rfl⟩)
    · simp only [layerHasPath]
      exact anyPath_createLayerItems.mpr ⟨hq, hb⟩

/-- A path is in the unstaged layer's items exactly when the unstaged input
lists it and it resolves to a building — in particular a path present in other
categories as well is not removed from this layer. -/
theorem git_unstaged_char (buildings : List CityBuilding) (gs : GitStatus) (q : String) :
    (∃ L ∈ gitStatusLayers buildings (some gs),
        L.id = "git-highlight-unstaged" ∧ layerHasPath L q = true) ↔
      (q ∈ gs.unstaged ∧ q ∈ covPathsOf buildings) := by
  constructor
  · rintro ⟨L, hL, hid, hpath⟩
    simp only [gitStatusLayers] at hL
    rcases List.mem_append.mp hL with h | hL
    · obtain ⟨hc, rfl⟩ := mem_if_singleton.mp h
      simp at hid
    rcases List.mem_append.mp hL with h | hL
    · obtain ⟨hc, rfl⟩ := mem_if_singleton.mp h
      simp only [layerHasPath] at hpath
      exact anyPath_createLayerItems.mp hpath
    rcases List.mem_append.mp hL with h | hL
    · obtain ⟨hc, rfl⟩ := mem_if_singleton.mp h
      simp at hid
    obtain ⟨hc, rfl⟩ := mem_if_singleton.mp hL
    simp at hid
  · rintro ⟨hq, hb⟩
    refine ⟨{ id := "git-highlight-unstaged"
              name := "Modified"
              enabled := true
              color := "#f59e0b"
              priority := 90
              items := createLayerItems (dedupPaths (buildings.map (·.path)))
                gs.unstaged }, ?_, rfl, ?_⟩
    · simp only [gitStatusLayers]
      exact List.mem_append_right _ (List.mem_append_left _ (mem_if_singleton.mpr
        ⟨⟨List.length_pos.mpr (List.ne_nil_of_mem hq),
          createLayerItems_pos hq hb⟩, rfl⟩))
    · simp only [layerHasPath]
      exact anyPath_createLayerItems.mpr ⟨hq, hb⟩

/-- Same characterization for the untracked layer. -/
theorem git_untracked_char (buildings : List CityBuilding) (gs : GitStatus) (q : String) :
    (∃ L ∈ gitStatusLayers buildings (some gs),
        L.id = "git-highlight-untracked" ∧ layerHasPath L q = true) ↔
      (q ∈ gs.untracked ∧ q ∈ covPathsOf buildings) := by
  constructor
  · rintro ⟨L, hL, hid, hpath⟩
    simp only [gitStatusLayers] at hL
    rcases List.mem_append.mp hL with h | hL
    · obtain ⟨hc, rfl⟩ := mem_if_singleton.mp h
      simp at hid
    rcases List.mem_append.mp hL with h | hL
    · obtain ⟨hc, rfl⟩ := mem_if_singleton.mp h
      simp at hid
    rcases List.mem_append.mp hL with h | hL
    · obtain ⟨hc, rfl⟩ := mem_if_singleton.mp h
      simp only [layerHasPath] at hpath
      exact anyPath_createLayerItems.mp hpath
    obtain ⟨hc, rfl⟩ := mem_if_singleton.mp hL
    simp at hid
  · rintro ⟨hq, hb⟩
    refine ⟨{ id := "git-highlight-untracked"
              name := "Untracked"
              enabled := true
              color := "#6b7280"
              priority := 80
              items := createLayerItems (dedupPaths (buildings.map (·.path)))
                gs.untracked }, ?_, rfl, ?_⟩
    · simp only [gitStatusLayers]
      exact List.mem_append_right _ (List.mem_append_right _ (List.mem_append_left _ (mem_if_singleton.mpr
        ⟨⟨List.length_pos.mpr (List.ne_nil_of_mem hq),
          createLayerItems_pos hq hb⟩, rfl⟩)))
    · simp only [layerHasPath]
      exact anyPath_createLayerItems.mpr ⟨hq, hb⟩

/-- Same characterization for the deleted layer. -/
theorem git_deleted_char (buildings : List CityBuilding) (gs : GitStatus) (q : String) :
    (∃ L ∈ gitStatusLayers buildings (some gs),
        L.id = "git-highlight-deleted" ∧ layerHasPath L q = true) ↔
      (q ∈ gs.deleted ∧ q ∈ covPathsOf buildings) := by
  constructor
  · rintro ⟨L, hL, hid, hpath⟩
    simp only [gitStatusLayers] at hL
    rcases List.mem_append.mp hL with h | hL
    · obtain ⟨hc, rfl⟩ := mem_if_singleton.mp h
      simp at hid
    rcases List.mem_append.mp hL with h | hL
    · obtain ⟨hc, rfl⟩ := mem_if_singleton.mp h
      simp at hid
    rcases List.mem_append.mp hL with h | hL
    · obtain ⟨hc, rfl⟩ := mem_if_singleton.mp h
      simp at hid
    obtain ⟨hc, rfl⟩ := mem_if_singleton.mp hL
    simp only [layerHasPath] at hpath
    exact anyPath_createLayerItems.mp hpath
  · rintro ⟨hq, hb⟩
    refine ⟨{ id := "git-highlight-deleted"
              name := "Deleted"
              enabled := true
              color := "#ef4444"
              priority := 110
              items := createLayerItems (dedupPaths (buildings.map (·.path)))
                gs.deleted }, ?_, rfl, ?_⟩
    · simp only [gitStatusLayers]
      exact List.mem_append_right _ (List.mem_append_right _ (List.mem_append_right _ (mem_if_singleton.mpr
        ⟨⟨List.length_pos.mpr (List.ne_nil_of_mem hq),
          createLayerItems_pos hq hb⟩, rfl⟩)))
    · simp only [layerHasPath]
      exact anyPath_createLayerItems.mpr ⟨hq, hb⟩

/-- Partition property of the git builder, under the git contract that the
four categories are pairwise disjoint. -/
theorem git_countP_le_one (buildings : List CityBuilding) (gs : GitStatus) (q : String)
    (hsu : ∀ x ∈ gs.staged, x ∉ gs.unstaged)
    (hst : ∀ x ∈ gs.staged, x ∉ gs.untracked)
    (hsd : ∀ x ∈ gs.staged, x ∉ gs.deleted)
    (hut : ∀ x ∈ gs.unstaged, x ∉ gs.untracked)
    (hud : ∀ x ∈ gs.unstaged, x ∉ gs.deleted)
    (htd : ∀ x ∈ gs.untracked, x ∉ gs.deleted) :
    ((gitStatusLayers buildings (some gs)).countP (fun L => layerHasPath L q)) ≤ 1 := by
  simp only [gitStatusLayers, List.countP_append]
  set bpaths := dedupPaths (buildings.map (·.path)) with hbp
  have key : ∀ (cat : List String) (i n : String) (e : Bool) (c : String) (pr : Int)
      (cnd : Prop) (inst : Decidable cnd),
      (@ite _ cnd inst [HighlightLayer.mk i n e c pr (createLayerItems bpaths cat)]
          []).countP (fun L => layerHasPath L q) ≤
        (if (q ∈ cat ∧ q ∈ bpaths) then 1 else 0) := by
    intro cat i n e c pr cnd inst
    refine le_trans (countP_if_singleton_le _ _) ?_
    by_cases hmem : q ∈ cat ∧ q ∈ bpaths
    · rw [if_pos hmem]
      split_ifs <;> omega
    · rw [if_neg hmem, if_neg]
      simp only [layerHasPath]
      intro hcontra
      exact hmem (anyPath_createLayerItems.mp hcontra)
  have total :
      (if (q ∈ gs.staged ∧ q ∈ bpaths) then 1 else 0) +
      ((if (q ∈ gs.unstaged ∧ q ∈ bpaths) then 1 else 0) +
      ((if (q ∈ gs.untracked ∧ q ∈ bpaths) then 1 else 0) +
      (if (q ∈ gs.deleted ∧ q ∈ bpaths) then 1 else 0))) ≤ 1 := by
    by_cases hb : q ∈ bpaths
    · by_cases h1 : q ∈ gs.staged
      · simp [hb, h1, hsu q h1, hst q h1, hsd q h1]
      · by_cases h2 : q ∈ gs.unstaged
        · simp [hb, h1, h2, hut q h2, hud q h2]
        · by_cases h3 : q ∈ gs.untracked
          · simp [hb, h1, h2, h3, htd q h3]
          · by_cases h4 : q ∈ gs.deleted <;> simp [hb, h1, h2, h3, h4]
    · simp [hb]
  refine le_trans ?_ total
  gcongr <;> exact key _ _ _ _ _ _ _ _

/-- The issue-count builder emits the layer of a bucket (with the id
`metricId ++ suffix` and exactly that bucket's items) precisely when the
bucket is non-empty. -/
theorem metric_layer_emission (buildings : List CityBuilding)
    (metrics : List FileMetricData) (metricId mName : String) (b : MetricBucket) :
    (∃ L ∈ createMetricHighlightLayers buildings metrics metricId mName,
        L.id = metricId ++ metricSuffix b ∧
        L.items = metricFilterItems metrics (covPathsOf buildings) b) ↔
      metricFilterItems metrics (covPathsOf buildings) b ≠ [] := by
  constructor
  · rintro ⟨L, hL, hid, hitems⟩
    rw [createMetric_expand] at hL
    rcases mem_six_append_iff.mp hL with h | h | h | h | h | h <;>
      obtain ⟨hc, rfl⟩ := mem_if_singleton.mp h <;>
      (have hb := string_append_cancel hid) <;>
      cases b <;>
      simp only [metricSuffix] at hb <;>
      first
      | exact List.length_pos.mp hc
      | exact absurd hb (by decide)
  · intro hne
    have hc := List.length_pos.mpr hne
    rw [createMetric_expand]
    cases b with
    | clean =>
      exact ⟨_, List.mem_append_left _ (List.mem_append_left _ (List.mem_append_left _
        (List.mem_append_left _ (List.mem_append_left _
          (mem_if_singleton.mpr ⟨hc, rfl⟩))))), rfl, rfl⟩
    | minor =>
      exact ⟨_, List.mem_append_left _ (List.mem_append_left _ (List.mem_append_left _
        (List.mem_append_left _ (List.mem_append_right _
          (mem_if_singleton.mpr ⟨hc, rfl⟩))))), rfl, rfl⟩
    | moderate =>
      exact ⟨_, List.mem_append_left _ (List.mem_append_left _ (List.mem_append_left _
        (List.mem_append_right _ (mem_if_singleton.mpr ⟨hc, rfl⟩)))), rfl, rfl⟩
    | significant =>
      exact ⟨_, List.mem_append_left _ (List.mem_append_left _ (List.mem_append_right _
        (mem_if_singleton.mpr ⟨hc, rfl⟩))), rfl, rfl⟩
    | severe =>
      exact ⟨_, List.mem_append_left _ (List.mem_append_right _
        (mem_if_singleton.mpr ⟨hc, rfl⟩)), rfl, rfl⟩
    | noData =>
      exact ⟨_, List.mem_append_right _ (mem_if_singleton.mpr ⟨hc, rfl⟩), rfl, rfl⟩

/-- Two issue-count modes classify identically: their outputs differ only in
the layer ids. -/
theorem metric_mode_uniform (buildings : List CityBuilding)
    (metrics : List FileMetricData) (id₁ n₁ id₂ n₂ : String) :
    (createMetricHighlightLayers buildings metrics id₁ n₁).map layerSansId =
      (createMetricHighlightLayers buildings metrics id₂ n₂).map layerSansId := by
  rw [createMetric_expand, createMetric_expand]
  split_ifs <;> simp [layerSansId]

/-- Every coverage layer carries one of the six fixed ids and priority at most
110. -/
theorem cov_layer_shape (buildings : List CityBuilding) (fc : List (String × ℚ)) :
    ∀ L ∈ createCoverageHighlightLayers buildings fc,
      L.id ∈ ["coverage-high", "coverage-medium", "coverage-low",
        "coverage-verylow", "coverage-zero", "coverage-nodata"] ∧ L.priority ≤ 110 := by
  intro L hL
  rw [createCoverage_expand] at hL
  rcases mem_six_append_iff.mp hL with h | h | h | h | h | h <;>
    obtain ⟨-, rfl⟩ := mem_if_singleton.mp h <;> simp

/-- Every git layer carries one of the four fixed ids and priority at most
110. -/
theorem git_layer_shape (buildings : List CityBuilding) (git : Option GitStatus) :
    ∀ L ∈ gitStatusLayers buildings git,
      L.id ∈ ["git-highlight-staged", "git-highlight-unstaged",
        "git-highlight-untracked", "git-highlight-deleted"] ∧ L.priority ≤ 110 := by
  intro L hL
  cases git with
  | none => simp [gitStatusLayers] at hL
  | some gs =>
    simp only [gitStatusLayers] at hL
    rcases mem_four_append_iff.mp hL with h | h | h | h <;>
      obtain ⟨-, rfl⟩ := mem_if_singleton.mp h <;> simp

/-- Every metric layer's id is the mode id followed by a bucket suffix, and
its priority is at most 110. -/
theorem metric_layer_shape (buildings : List CityBuilding)
    (metrics : List FileMetricData) (metricId mName : String) :
    ∀ L ∈ createMetricHighlightLayers buildings metrics metricId mName,
      (∃ bkt : MetricBucket, L.id = metricId ++ metricSuffix bkt) ∧ L.priority ≤ 110 := by
  intro L hL
  rw [createMetric_expand] at hL
  rcases mem_six_append_iff.mp hL with h | h | h | h | h | h <;>
    obtain ⟨-, rfl⟩ := mem_if_singleton.mp h
  · exact ⟨⟨.clean, rfl⟩, by simp⟩
  · exact ⟨⟨.minor, rfl⟩, by simp⟩
  · exact ⟨⟨.moderate, rfl⟩, by simp⟩
  · exact ⟨⟨.significant, rfl⟩, by simp⟩
  · exact ⟨⟨.severe, rfl⟩, by simp⟩
  · exact ⟨⟨.noData, rfl⟩, by simp⟩

/-- `formatAgentLayer` only rewrites `id` and `priority`; any field function
unaffected by those is preserved, and so is the whole list of values. -/
theorem formattedAgentLayers_field {β : Type} (f : HighlightLayer → β)
    (hf : ∀ i a, f (formatAgentLayer i a) = f a) (as : List HighlightLayer) :
    (formattedAgentLayers as).map f = as.map f := by
  unfold formattedAgentLayers
  rw [List.map_map]
  have h1 : (f ∘ fun e : Nat × HighlightLayer => formatAgentLayer e.1 e.2) =
      (f ∘ Prod.snd) := funext fun e => hf e.1 e.2
  rw [h1, ← List.map_map, List.enum_map_snd]

theorem formattedAgentLayers_length (as : List HighlightLayer) :
    (formattedAgentLayers as).length = as.length := by
  simp [formattedAgentLayers]

theorem toggleHighlightLayer_noop {i : String} {ls : List HighlightLayer}
    (h : ∀ L ∈ ls, L.id ≠ i) : toggleHighlightLayer i ls = ls := by
  induction ls with
  | nil => rfl
  | cons a t ih =>
    have ha : a.id ≠ i := h a (by simp)
    have ht : toggleHighlightLayer i t = t := ih (fun L hL => h L (by simp [hL]))
    simp only [toggleHighlightLayer, List.map_cons, if_neg ha]
    simp only [toggleHighlightLayer] at ht
    rw [ht]

theorem metricSuffix_inj {b b' : MetricBucket} (h : metricSuffix b = metricSuffix b') :
    b = b' := by
  cases b <;> cases b' <;> simp_all [metricSuffix]

/-- The issue-count builder never emits two layers with the same bucket id. -/
theorem metric_id_countP_le_one (buildings : List CityBuilding)
    (metrics : List FileMetricData) (metricId mName : String) (b : MetricBucket) :
    (createMetricHighlightLayers buildings metrics metricId mName).countP
      (fun L => L.id == metricId ++ metricSuffix b) ≤ 1 := by
  rw [createMetric_expand]
  simp only [List.countP_append]
  have step : ∀ (b' : MetricBucket) (nm col : String) (pr : Int)
      (items : List LayerItem) (cnd : Prop) (inst : Decidable cnd),
      (@ite _ cnd inst
          [HighlightLayer.mk (metricId ++ metricSuffix b') nm true col pr items]
          []).countP (fun L => L.id == metricId ++ metricSuffix b) ≤
        (if b' = b then 1 else 0) := by
    intro b' nm col pr items cnd inst
    refine le_trans (countP_if_singleton_le _ _) ?_
    by_cases hbb : b' = b
    · simp [hbb]
    · have hne : (metricId ++ metricSuffix b' == metricId ++ metricSuffix b) = false := by
        refine beq_eq_false_iff_ne.mpr ?_
        intro hcontra
        exact hbb (metricSuffix_inj (string_append_cancel hcontra))
      simp [hne, hbb]
  have total :
      (if MetricBucket.clean = b then 1 else 0) +
      (if MetricBucket.minor = b then 1 else 0) +
      (if MetricBucket.moderate = b then 1 else 0) +
      (if MetricBucket.significant = b then 1 else 0) +
      (if MetricBucket.severe = b then 1 else 0) +
      (if MetricBucket.noData = b then 1 else 0) ≤ 1 := by
    cases b <;> simp
  refine le_trans ?_ total
  gcongr
  · exact step .clean _ _ _ _ _ _
  · exact step .minor _ _ _ _ _ _
  · exact step .moderate _ _ _ _ _ _
  · exact step .significant _ _ _ _ _ _
  · exact step .severe _ _ _ _ _ _
  · exact step .noData _ _ _ _ _ _

/-- A string starting with `ext-` does not start with `event-highlight`. -/
theorem ext_not_event {s : String} (h : strStartsWith s "ext-" = true) :
    strStartsWith s "event-highlight" = false := by
  unfold strStartsWith at h ⊢
  obtain ⟨t1, ht1⟩ := List.isPrefixOf_iff_prefix.mp h
  by_contra hc
  rw [Bool.not_eq_false] at hc
  obtain ⟨t2, ht2⟩ := List.isPrefixOf_iff_prefix.mp hc
  rw [← ht1] at ht2
  have h1 : "event-highlight".toList = 'e' :: 'v' :: "ent-highlight".toList := rfl
  have h2 : "ext-".toList = 'e' :: 'x' :: "t-".toList := rfl
  rw [h1, h2] at ht2
  simp only [List.cons_append, List.cons.injEq] at ht2
  exact absurd ht2.2.1 (by decide)

theorem toggleHighlightLayer_ids (i : String) (ls : List HighlightLayer) :
    (toggleHighlightLayer i ls).map (·.id) = ls.map (·.id) := by
  unfold toggleHighlightLayer
  rw [List.map_map]
  have h1 : ((·.id) ∘ fun L : HighlightLayer =>
      if L.id = i then { L with enabled := !L.enabled } else L) = (·.id) := by
    funext L
    by_cases h : L.id = i <;> simp [h]
  rw [h1]

theorem toggleHighlightLayer_items (i : String) (ls : List HighlightLayer) :
    (toggleHighlightLayer i ls).map (·.items) = ls.map (·.items) := by
  unfold toggleHighlightLayer
  rw [List.map_map]
  have h1 : ((·.items) ∘ fun L : HighlightLayer =>
      if L.id = i then { L with enabled := !L.enabled } else L) = (·.items) := by
    funext L
    by_cases h : L.id = i <;> simp [h]
  rw [h1]

/-- C1: the spec requires that the active color mode always lie in the
currently-available mode set, falling back to `fileTypes` when its data
disappears.  The code violates this: with the repository path unchanged, a
recomputation after the quality slice goes away leaves the active mode at
`coverage` even though `coverage` is no longer among the available modes —
only a repository-path change ever resets the mode. -/
theorem C1_no_fallback_when_quality_data_disappears :
    (∃ m ∈ availableColorModes none (some ⟨some [("a.ts", 50)], none⟩),
        m.id = ColorMode.coverage) ∧
    recomputeOnChange ⟨ColorMode.coverage, some "repoA"⟩ (some "repoA") =
      ⟨ColorMode.coverage, some "repoA"⟩ ∧
    (∀ m ∈ availableColorModes none none, m.id ≠ ColorMode.coverage) := by
  decide

/-- C2 counterexample: with `x.ts` listed in both the staged and the unstaged
inputs, the git builder puts the path into the items of BOTH
`git-highlight-staged` and `git-highlight-unstaged` — the claim says it must
never appear in the unstaged layer. -/
theorem C2_counterexample_path_in_both_layers :
    (∃ L ∈ gitStatusLayers [⟨"x.ts"⟩] (some ⟨["x.ts"], ["x.ts"], [], []⟩),
        L.id = "git-highlight-unstaged" ∧ layerHasPath L "x.ts" = true) ∧
    (∃ L ∈ gitStatusLayers [⟨"x.ts"⟩] (some ⟨["x.ts"], ["x.ts"], [], []⟩),
        L.id = "git-highlight-staged" ∧ layerHasPath L "x.ts" = true) := by
  decide

/-- C2 (amended): the git builder applies no cross-category precedence — each
category's layer contains exactly the resolvable paths of that category's own
input list, independently of the other categories, so a duplicated path
appears in every matching layer. -/
theorem C2_git_layers_reflect_input_categories (buildings : List CityBuilding)
    (gs : GitStatus) (q : String) :
    ((∃ L ∈ gitStatusLayers buildings (some gs),
        L.id = "git-highlight-staged" ∧ layerHasPath L q = true) ↔
      (q ∈ gs.staged ∧ q ∈ covPathsOf buildings)) ∧
    ((∃ L ∈ gitStatusLayers buildings (some gs),
        L.id = "git-highlight-unstaged" ∧ layerHasPath L q = true) ↔
      (q ∈ gs.unstaged ∧ q ∈ covPathsOf buildings)) ∧
    ((∃ L ∈ gitStatusLayers buildings (some gs),
        L.id = "git-highlight-untracked" ∧ layerHasPath L q = true) ↔
      (q ∈ gs.untracked ∧ q ∈ covPathsOf buildings)) ∧
    ((∃ L ∈ gitStatusLayers buildings (some gs),
        L.id = "git-highlight-deleted" ∧ layerHasPath L q = true) ↔
      (q ∈ gs.deleted ∧ q ∈ covPathsOf buildings)) :=
  ⟨git_staged_char buildings gs q, git_unstaged_char buildings gs q,
   git_untracked_char buildings gs q, git_deleted_char buildings gs q⟩

/-- C3 counterexample: an annotation layer supplied with priority 10 keeps
priority 10 in the composed Layer Set (it is not forced to 150), and the git
deleted mode layer (priority 110) lies above it. -/
theorem C3_counterexample_supplied_priority_kept :
    (∃ L ∈ composeLayers ColorMode.git []
        (gitStatusLayers [⟨"a.ts"⟩] (some ⟨[], [], [], ["a.ts"]⟩)) []
        [⟨"agent-activity", "Agent", true, "#ffffff", 10, []⟩],
      L.id = "agent-activity" ∧ L.priority = 10) ∧
    (∃ L ∈ composeLayers ColorMode.git []
        (gitStatusLayers [⟨"a.ts"⟩] (some ⟨[], [], [], ["a.ts"]⟩)) []
        [⟨"agent-activity", "Agent", true, "#ffffff", 10, []⟩],
      L.id = "git-highlight-deleted" ∧ L.priority = 110) := by
  decide

/-- C3 (amended): an annotation layer's priority is the supplied one when it
is nonzero and the default 150 only when the supplied priority is absent
(zero); every git/coverage/issue-count mode layer has priority at most 110,
so annotation layers that get the default do render above all of them. -/
theorem C3_agent_priority_default_dominates :
    (∀ (i : Nat) (a : HighlightLayer),
        (formatAgentLayer i a).priority =
          if a.priority = 0 then 150 else a.priority) ∧
    (∀ (buildings : List CityBuilding) (git : Option GitStatus),
        ∀ L ∈ gitStatusLayers buildings git, L.priority ≤ 110) ∧
    (∀ (buildings : List CityBuilding) (fc : List (String × ℚ)),
        ∀ L ∈ createCoverageHighlightLayers buildings fc, L.priority ≤ 110) ∧
    (∀ (buildings : List CityBuilding) (metrics : List FileMetricData)
        (metricId mName : String),
        ∀ L ∈ createMetricHighlightLayers buildings metrics metricId mName,
          L.priority ≤ 110) ∧
    (∀ (i : Nat) (a : HighlightLayer), a.priority = 0 →
        110 < (formatAgentLayer i a).priority) := by
  refine ⟨fun i a => rfl, ?_, ?_, ?_, ?_⟩
  · intro b g L hL
    exact (git_layer_shape b g L hL).2
  · intro b fc L hL
    exact (cov_layer_shape b fc L hL).2
  · intro b m mid nm L hL
    exact (metric_layer_shape b m mid nm L hL).2
  · intro i a ha
    simp [formatAgentLayer, ha]

/-- C3 witness: the claim theorem applied at a concrete git layer and a
concrete default-priority agent layer. -/
theorem C3_agent_priority_default_dominates_witness :
    ((⟨"git-highlight-staged", "Staged", true, "#22c55e", 100,
        [fillItem "a.ts"]⟩ : HighlightLayer).priority ≤ 110) ∧
    (110 < (formatAgentLayer 0
        ⟨"agent-activity", "Agent", true, "#ffffff", 0, []⟩).priority) :=
  ⟨C3_agent_priority_default_dominates.2.1 [⟨"a.ts"⟩]
      (some ⟨["a.ts"], [], [], []⟩) _ (by decide),
   C3_agent_priority_default_dominates.2.2.2.2 0
      ⟨"agent-activity", "Agent", true, "#ffffff", 0, []⟩ rfl⟩

/-- C4 counterexample: the user disables an agent layer by toggling it; the
next mode-change recomposition rebuilds the agent layer from the slice with
`enabled := true` again, so the manual toggle is NOT preserved. -/
theorem C4_counterexample_manual_toggle_lost :
    (∃ L ∈ toggleAgentLayer "event-highlight-run"
        (composeLayers ColorMode.git []
          (gitStatusLayers [⟨"a.ts"⟩] (some ⟨["a.ts"], [], [], []⟩)) []
          [⟨"event-highlight-run", "Run", true, "#ffffff", 0, []⟩]),
      L.id = "event-highlight-run" ∧ L.enabled = false) ∧
    (∀ L ∈ composeLayers ColorMode.coverage []
        (gitStatusLayers [⟨"a.ts"⟩] (some ⟨["a.ts"], [], [], []⟩))
        (createCoverageHighlightLayers [⟨"a.ts"⟩] [("a.ts", 90)])
        [⟨"event-highlight-run", "Run", true, "#ffffff", 0, []⟩],
      L.id = "event-highlight-run" → L.enabled = true) := by
  decide

/-- C4 (amended): on every recomputation the previous mode layers are fully
replaced by the new mode's layers (the previous Layer Set is not consulted at
all), and the annotation layers persist — re-derived from the slice, keeping
their items, with their `enabled` flag taken from the slice value rather than
from any manual toggle. -/
theorem C4_mode_change_replaces_mode_layers :
    (∀ (mode : ColorMode) (fcl gl ql as : List HighlightLayer),
        composeLayers mode fcl gl ql as =
          modeLayersFor mode fcl gl ql ++ formattedAgentLayers as) ∧
    (∀ as : List HighlightLayer,
        (formattedAgentLayers as).map (·.enabled) = as.map (·.enabled)) ∧
    (∀ as : List HighlightLayer,
        (formattedAgentLayers as).map (·.items) = as.map (·.items)) ∧
    (∀ (mode : ColorMode) (fcl gl ql as : List HighlightLayer),
        ∀ L ∈ formattedAgentLayers as, L ∈ composeLayers mode fcl gl ql as) := by
  refine ⟨fun _ _ _ _ _ => rfl, ?_, ?_, ?_⟩
  · intro as
    exact formattedAgentLayers_field (·.enabled) (fun i a => rfl) as
  · intro as
    exact formattedAgentLayers_field (·.items) (fun i a => rfl) as
  · intro m fcl gl ql as L hL
    exact List.mem_append_right _ hL

/-- C4 witness: the claim theorem applied at a concrete agent layer and mode. -/
theorem C4_mode_change_replaces_mode_layers_witness :
    formatAgentLayer 0 ⟨"event-highlight-run", "Run", true, "#ffffff", 0, []⟩ ∈
      composeLayers ColorMode.git [] [] []
        [⟨"event-highlight-run", "Run", true, "#ffffff", 0, []⟩] :=
  C4_mode_change_replaces_mode_layers.2.2.2 ColorMode.git [] [] []
    [⟨"event-highlight-run", "Run", true, "#ffffff", 0, []⟩] _ (by decide)

/-- C5 counterexample: the layer holding the very-low bucket is emitted with
id `coverage-verylow` (all lowercase); no layer with the claimed id
`coverage-veryLow` exists in the scenario's output. -/
theorem C5_counterexample_verylow_id_casing :
    (∀ L ∈ createCoverageHighlightLayers
        [⟨"a.ts"⟩, ⟨"b.ts"⟩, ⟨"c.ts"⟩, ⟨"d.ts"⟩, ⟨"e.ts"⟩]
        [("a.ts", 85), ("b.ts", 50), ("c.ts", 19), ("d.ts", 0)],
      L.id ≠ "coverage-veryLow") ∧
    (∃ L ∈ createCoverageHighlightLayers
        [⟨"a.ts"⟩, ⟨"b.ts"⟩, ⟨"c.ts"⟩, ⟨"d.ts"⟩, ⟨"e.ts"⟩]
        [("a.ts", 85), ("b.ts", 50), ("c.ts", 19), ("d.ts", 0)],
      L.id = "coverage-verylow" ∧ layerHasPath L "c.ts" = true) := by
  decide

/-- C5 (amended): the coverage builder classifies by the six closed-bound
buckets exactly as claimed, and the scenario input yields the five expected
layers — with the very-low layer's id spelled `coverage-verylow`. -/
theorem C5_coverage_builder_buckets :
    (∀ c : ℚ, 0 ≤ c → c ≤ 100 →
      (coverageBucket (some c) = .high ↔ 80 ≤ c ∧ c ≤ 100) ∧
      (coverageBucket (some c) = .medium ↔ 50 ≤ c ∧ c < 80) ∧
      (coverageBucket (some c) = .low ↔ 20 ≤ c ∧ c < 50) ∧
      (coverageBucket (some c) = .veryLow ↔ 0 < c ∧ c < 20) ∧
      (coverageBucket (some c) = .zero ↔ c = 0)) ∧
    (coverageBucket none = .noData) ∧
    (createCoverageHighlightLayers
        [⟨"a.ts"⟩, ⟨"b.ts"⟩, ⟨"c.ts"⟩, ⟨"d.ts"⟩, ⟨"e.ts"⟩]
        [("a.ts", 85), ("b.ts", 50), ("c.ts", 19), ("d.ts", 0)] =
      [⟨"coverage-high", "80-100%", true, "#22c55e", 50, [fillItem "a.ts"]⟩,
       ⟨"coverage-medium", "50-79%", true, "#eab308", 50, [fillItem "b.ts"]⟩,
       ⟨"coverage-verylow", "1-19%", true, "#ef4444", 50, [fillItem "c.ts"]⟩,
       ⟨"coverage-zero", "0%", true, "#991b1b", 50, [fillItem "d.ts"]⟩,
       ⟨"coverage-nodata", "No data", true, "#6b7280", 40, [fillItem "e.ts"]⟩]) :=
  ⟨coverageBucket_char, rfl, by decide⟩

/-- C5 witness: the bucket characterization applied at coverage 85. -/
theorem C5_coverage_builder_buckets_witness :
    coverageBucket (some 85) = CovBucket.high ↔ (80 : ℚ) ≤ 85 ∧ (85 : ℚ) ≤ 100 :=
  (C5_coverage_builder_buckets.1 85 (by norm_num) (by norm_num)).1

/-- C6: the issue-count builder classifies by the claimed thresholds
(0 clean, 1-3 minor, 4-10 moderate, 11-25 significant, over 25 severe,
missing noData), emits a layer with id `metricId ++ suffix` holding exactly a
bucket's files precisely when the bucket is non-empty (and never twice), and
every quality mode classifies identically — outputs differ only in ids. -/
theorem C6_issue_count_builder_buckets :
    (∀ m : FileMetricData,
      (metricBucket (some m) = .clean ↔ m.issueCount = 0) ∧
      (metricBucket (some m) = .minor ↔ 1 ≤ m.issueCount ∧ m.issueCount ≤ 3) ∧
      (metricBucket (some m) = .moderate ↔ 4 ≤ m.issueCount ∧ m.issueCount ≤ 10) ∧
      (metricBucket (some m) = .significant ↔
        11 ≤ m.issueCount ∧ m.issueCount ≤ 25) ∧
      (metricBucket (some m) = .severe ↔ 26 ≤ m.issueCount)) ∧
    (metricBucket none = .noData) ∧
    (∀ (buildings : List CityBuilding) (metrics : List FileMetricData)
        (metricId mName : String) (b : MetricBucket),
      ((∃ L ∈ createMetricHighlightLayers buildings metrics metricId mName,
          L.id = metricId ++ metricSuffix b ∧
          L.items = metricFilterItems metrics (covPathsOf buildings) b) ↔
        metricFilterItems metrics (covPathsOf buildings) b ≠ []) ∧
      (createMetricHighlightLayers buildings metrics metricId mName).countP
        (fun L => L.id == metricId ++ metricSuffix b) ≤ 1) ∧
    (∀ (buildings : List CityBuilding) (metrics : List FileMetricData)
        (id₁ n₁ id₂ n₂ : String),
      (createMetricHighlightLayers buildings metrics id₁ n₁).map layerSansId =
        (createMetricHighlightLayers buildings metrics id₂ n₂).map layerSansId) :=
  ⟨metricBucket_char, rfl,
   fun b m mid nm bkt =>
     ⟨metric_layer_emission b m mid nm bkt, metric_id_countP_le_one b m mid nm bkt⟩,
   metric_mode_uniform⟩

/-- C7 counterexample: the git builder is a color-mode builder too, and on an
input listing `x.ts` both staged and unstaged the path appears in the item
sets of two emitted layers. -/
theorem C7_counterexample_git_overlap :
    (gitStatusLayers [⟨"x.ts"⟩] (some ⟨["x.ts"], ["x.ts"], [], []⟩)).countP
      (fun L => layerHasPath L "x.ts") = 2 := by
  decide

/-- C7 (amended): the coverage and issue-count builders always place a path in
at most one emitted layer's item set; the git builder guarantees this only
when the four input categories are pairwise disjoint. -/
theorem C7_builder_outputs_partition :
    (∀ (buildings : List CityBuilding) (fc : List (String × ℚ)) (q : String),
        (createCoverageHighlightLayers buildings fc).countP
          (fun L => layerHasPath L q) ≤ 1) ∧
    (∀ (buildings : List CityBuilding) (metrics : List FileMetricData)
        (metricId mName : String) (q : String),
        (createMetricHighlightLayers buildings metrics metricId mName).countP
          (fun L => layerHasPath L q) ≤ 1) ∧
    (∀ (buildings : List CityBuilding) (gs : GitStatus) (q : String),
        (∀ x ∈ gs.staged, x ∉ gs.unstaged) →
        (∀ x ∈ gs.staged, x ∉ gs.untracked) →
        (∀ x ∈ gs.staged, x ∉ gs.deleted) →
        (∀ x ∈ gs.unstaged, x ∉ gs.untracked) →
        (∀ x ∈ gs.unstaged, x ∉ gs.deleted) →
        (∀ x ∈ gs.untracked, x ∉ gs.deleted) →
        (gitStatusLayers buildings (some gs)).countP
          (fun L => layerHasPath L q) ≤ 1) :=
  ⟨coverage_countP_le_one, metric_countP_le_one,
   fun b gs q h1 h2 h3 h4 h5 h6 => git_countP_le_one b gs q h1 h2 h3 h4 h5 h6⟩

/-- C7 witness: the claim theorem applied at concrete builder inputs with
disjoint git categories. -/
theorem C7_builder_outputs_partition_witness :
    ((createCoverageHighlightLayers [⟨"a.ts"⟩] [("a.ts", 85)]).countP
      (fun L => layerHasPath L "a.ts") ≤ 1) ∧
    ((createMetricHighlightLayers [⟨"a.ts"⟩]
        [⟨"a.ts", 100, 0, 0, 0, 0, 0⟩] "eslint" "Linting").countP
      (fun L => layerHasPath L "a.ts") ≤ 1) ∧
    ((gitStatusLayers [⟨"a.ts"⟩] (some ⟨["a.ts"], [], [], []⟩)).countP
      (fun L => layerHasPath L "a.ts") ≤ 1) :=
  ⟨C7_builder_outputs_partition.1 _ _ _,
   C7_builder_outputs_partition.2.1 _ _ _ _ _,
   C7_builder_outputs_partition.2.2 [⟨"a.ts"⟩] ⟨["a.ts"], [], [], []⟩ "a.ts"
     (by decide) (by decide) (by decide) (by decide) (by decide) (by decide)⟩

/-- C8: the availability predicate is a pure total function returning true for
`fileTypes` unconditionally, for `git` exactly when git data is present, and
for each quality mode exactly when that mode's metric source is present with
at least one entry. -/
theorem C8_availability_predicate (mode : ColorMode)
    (qualityData : Option QualitySliceData) (hasGit : Bool) :
    isColorModeAvailable mode qualityData hasGit = true ↔
      availableSpec mode qualityData hasGit :=
  isColorModeAvailable_iff_spec mode qualityData hasGit

/-- C9: toggling a layer id maps each layer in place — flipping `enabled` on
the matching id, leaving ids, items and every other layer untouched, never
changing the length — and toggling an id not present is a no-op; the three
toggle callbacks share this one body. -/
theorem C9_toggle_flips_enabled_in_place :
    (∀ (i : String) (ls : List HighlightLayer),
        (toggleHighlightLayer i ls).length = ls.length) ∧
    (∀ (i : String) (ls : List HighlightLayer) (k : Nat),
        (toggleHighlightLayer i ls)[k]? = (ls[k]?).map (fun L =>
          if L.id = i then { L with enabled := !L.enabled } else L)) ∧
    (∀ (i : String) (ls : List HighlightLayer),
        (toggleHighlightLayer i ls).map (·.id) = ls.map (·.id)) ∧
    (∀ (i : String) (ls : List HighlightLayer),
        (toggleHighlightLayer i ls).map (·.items) = ls.map (·.items)) ∧
    (∀ (i : String) (ls : List HighlightLayer),
        (∀ L ∈ ls, L.id ≠ i) → toggleHighlightLayer i ls = ls) ∧
    (toggleGitStatus = toggleHighlightLayer ∧
      toggleAgentLayer = toggleHighlightLayer ∧
      toggleQualityMetric = toggleHighlightLayer) := by
  refine ⟨?_, ?_, toggleHighlightLayer_ids, toggleHighlightLayer_items,
    fun i ls h => toggleHighlightLayer_noop h, rfl, rfl, rfl⟩
  · intro i ls
    simp [toggleHighlightLayer]
  · intro i ls k
    simp [toggleHighlightLayer, List.getElem?_map]

/-- C9 witness: toggling an id absent from a concrete Layer Set leaves it
unchanged. -/
theorem C9_toggle_flips_enabled_in_place_witness :
    toggleHighlightLayer "missing-id"
      [⟨"git-highlight-staged", "Staged", true, "#22c55e", 100, []⟩] =
      [⟨"git-highlight-staged", "Staged", true, "#22c55e", 100, []⟩] :=
  C9_toggle_flips_enabled_in_place.2.2.2.2.1 "missing-id" _ (by decide)

/-- C10: clearing removes exactly the layers whose id starts with
`event-highlight`; an externally-supplied agent layer keeps its own id
verbatim whenever present (the indexed fallback id is used only for an absent
id), so one whose id does not start with `event-highlight` survives the
clear, and no git/coverage/quality/file-type mode layer ever starts with
`event-highlight`. -/
theorem C10_clear_removes_exactly_event_layers :
    (∀ (ls : List HighlightLayer) (L : HighlightLayer),
        L ∈ clearAgentLayers ls ↔
          (L ∈ ls ∧ strStartsWith L.id "event-highlight" = false)) ∧
    (∀ (i : Nat) (a : HighlightLayer), a.id ≠ "" →
        (formatAgentLayer i a).id = a.id) ∧
    (∀ (i : Nat) (a : HighlightLayer), a.id = "" →
        (formatAgentLayer i a).id = "event-highlight-" ++ Nat.repr i) ∧
    (∀ (buildings : List CityBuilding) (git : Option GitStatus),
        ∀ L ∈ gitStatusLayers buildings git,
          strStartsWith L.id "event-highlight" = false) ∧
    (∀ (buildings : List CityBuilding) (fc : List (String × ℚ)),
        ∀ L ∈ createCoverageHighlightLayers buildings fc,
          strStartsWith L.id "event-highlight" = false) ∧
    (∀ (buildings : List CityBuilding) (metrics : List FileMetricData),
        ∀ mid ∈ (["eslint", "typescript", "prettier", "knip", "alexandria"] :
          List String),
          ∀ (nm : String),
            ∀ L ∈ createMetricHighlightLayers buildings metrics mid nm,
              strStartsWith L.id "event-highlight" = false) ∧
    (∀ L : HighlightLayer, strStartsWith L.id "ext-" = true →
        strStartsWith L.id "event-highlight" = false) := by
  refine ⟨?_, ?_, ?_, ?_, ?_, ?_, fun L h => ext_not_event h⟩
  · intro ls L
    simp [clearAgentLayers, List.mem_filter, Bool.not_eq_true']
  · intro i a h
    simp [formatAgentLayer, h]
  · intro i a h
    simp [formatAgentLayer, h]
  · intro b g L hL
    have hid := (git_layer_shape b g L hL).1
    have hfact : ∀ s ∈ (["git-highlight-staged", "git-highlight-unstaged",
        "git-highlight-untracked", "git-highlight-deleted"] : List String),
        strStartsWith s "event-highlight" = false := by decide
    exact hfact _ hid
  · intro b fc L hL
    have hid := (cov_layer_shape b fc L hL).1
    have hfact : ∀ s ∈ (["coverage-high", "coverage-medium", "coverage-low",
        "coverage-verylow", "coverage-zero", "coverage-nodata"] : List String),
        strStartsWith s "event-highlight" = false := by decide
    exact hfact _ hid
  · intro b m mid hmid nm L hL
    obtain ⟨⟨bkt, hid⟩, -⟩ := metric_layer_shape b m mid nm L hL
    rw [hid]
    fin_cases hmid <;> cases bkt <;> decide

theorem C10_clear_removes_exactly_event_layers_witness :
    (formatAgentLayer 3 ⟨"agent-custom", "Agent", true, "#ffffff", 0, []⟩).id =
      "agent-custom" :=
  C10_clear_removes_exactly_event_layers.2.1 3
    ⟨"agent-custom", "Agent", true, "#ffffff", 0, []⟩ (by decide)

end CodeCity
